import Mathlib

/-!
Verification of the blobscan indexer's blob-storage core.

The embedding follows src/packages/api/src/router/indexer.ts
(`indexerRouter.index`), restricted to its blob-storage path:

  step 1 - Swarm postage availability guard (lines 99-108);
  step 2 - dedup of candidate blobs against the database (line 115);
  step 3 - fan-out upload of each new blob to Google Storage and Swarm
           (lines 120-151), producing the uploaded-blob records handed to
           the relational persistence layer.

Effectful collaborators (the Swarm client, the Google Storage client and
the known-blob lookup) are modelled as explicit functions inside `Env`; a
failed promise is a `none` result.  `index` returns a trace recording which
backend status checks ran, how many dedup lookups were issued, every store
operation that was started, and the final outcome (the record list on
success, a typed error on failure — in the source the mutation throws, so
nothing after the failing step runs).

Helper modules absent from the provided sources are modelled where noted in
their doc comments (`getNewBlobs`/`partition`, `calculateBlobSize`); the
storage-key format of `buildGoogleStorageUri` is pinned by the inline
snapshot in src/packages/blob-storage-manager/test/storages/GoogleStorage.test.ts.
-/

/-- TypeScript `s.slice(start, stop)` for `0 ≤ start ≤ stop`: the characters
at indices `start` (inclusive) to `stop` (exclusive). -/
def sliceStr (s : String) (start stop : Nat) : String :=
  ((s.data.drop start).take (stop - start)).asString

/-- TypeScript `s.slice(start)`: the characters from index `start` on. -/
def sliceFrom (s : String) (start : Nat) : String :=
  (s.data.drop start).asString

/-- Storage key for a blob, from the versioned hash `h` (a `0x`-prefixed hex
digest) and the chain id.  Source file src/packages/api/src/utils/storages.ts
is absent; the format is pinned by the inline snapshot in
GoogleStorage.test.ts: `storeBlob` over chain id 70118930558 and hash
`0x0100eac8...c174` yields `70118930558/01/00/ea/0100eac8...c174.txt`, i.e.
three 2-hex-character shard segments (characters 2-4, 4-6, 6-8 of the
prefixed hash) followed by the full digest and a `.txt` extension. -/
def buildGoogleStorageUri (chainId h : String) : String :=
  chainId ++ "/" ++ sliceStr h 2 4 ++ "/" ++ sliceStr h 4 6 ++ "/"
    ++ sliceStr h 6 8 ++ "/" ++ sliceFrom h 2 ++ ".txt"

/-- Key derivation following the spec's words in section 4.1 literally:
chain-id prefix, then the shard segments, then the REMAINDER of the hash
(what is left after the segments).  Declared only to be compared with
`buildGoogleStorageUri`, which keeps the full digest instead. -/
def specDeriveKey (chainId h : String) : String :=
  chainId ++ "/" ++ sliceStr h 2 4 ++ "/" ++ sliceStr h 4 6 ++ "/"
    ++ sliceStr h 6 8 ++ "/" ++ sliceFrom h 8 ++ ".txt"

/-- Modelled from the spec: byte size of a blob's `0x`-prefixed hex payload
(src/packages/api/src/utils/blob.ts is absent from the sources); two hex
characters per byte after the prefix. -/
def calculateBlobSize (data : String) : Nat :=
  (data.length - 2) / 2

/-- One element of the `blobs` array of an index request (INDEX_REQUEST_DATA). -/
structure Blob where
  versionedHash : String
  commitment : String
  data : String
  txHash : String
  index : Nat
deriving DecidableEq, Repr

/-- A Swarm postage batch as the guard in indexer.ts observes it: the code
tests `batches[0]?.batchID === undefined`, so the id is optional here. -/
structure PostageBatch where
  batchID : Option String
deriving DecidableEq, Repr

/-- The storage backends the index mutation writes to. -/
inductive Backend
  | googleStorage
  | swarm
deriving DecidableEq, Repr

/-- A store operation issued against one backend: which backend, under which
key, with which payload. -/
structure WriteOp where
  backend : Backend
  key : String
  data : String
deriving DecidableEq, Repr

/-- The per-blob record built after both uploads succeed (indexer.ts lines
142-149), later handed to `prisma.blob.createMany`. -/
structure UploadedBlob where
  id : String
  versionedHash : String
  commitment : String
  gsUri : String
  swarmHash : String
  size : Nat
deriving DecidableEq, Repr

/-- The ways the embedded mutation fails: the postage guard throws
`Not available Swarm postages`, or some upload rejects and `Promise.all`
propagates the failure. -/
inductive IndexError
  | swarmPostagesUnavailable
  | batchWriteFailed
deriving DecidableEq, Repr

/-- The environment of one call: configuration plus the effectful
collaborators, as pure functions.  `gsStore key data` models
`storage.bucket(...).file(key).save(data)`; `swarmUpload batchId data name`
models `swarm.bee.uploadFile(batchId, data, name, ...)` returning the Swarm
reference; `none` is a rejected promise. -/
structure Env where
  chainId : String
  postageBatches : List PostageBatch
  knownHashes : List String
  gsStore : String → String → Option Unit
  swarmUpload : String → String → String → Option String

/-- Modelled from the spec: the DedupFilter partition behind `getNewBlobs`
(src/packages/api/src/utils/indexer.ts is absent from the sources).  One
bulk lookup over all candidate hashes splits the candidates into the new
ones (hash not reported known) and the existing ones, both in input order;
the empty candidate set short-circuits without invoking the lookup.  The
`Nat` component counts lookup invocations. -/
def partition (candidates : List Blob) (lookup : List String → List String) :
    (List Blob × List Blob) × Nat :=
  if candidates.isEmpty then (([], []), 0)
  else
    let known := lookup (candidates.map Blob.versionedHash)
    ((candidates.filter (fun b => !(known.contains b.versionedHash)),
      candidates.filter (fun b => known.contains b.versionedHash)), 1)

/-- The known-hash lookup the mutation borrows from the persistence layer:
`prisma.blob.findMany` with `id in hashes` returns the queried hashes that
exist in the table. -/
def bulkLookup (knownHashes : List String) : List String → List String :=
  fun hashes => hashes.filter (fun h => knownHashes.contains h)

/-- The new blobs of a request: the candidates whose hash the lookup does
not report as known (`getNewBlobs`). -/
def getNewBlobs (knownHashes : List String) (blobs : List Blob) : List Blob :=
  ((partition blobs (bulkLookup knownHashes)).1).1

/-- The guard of indexer.ts line 103:
`batches.length === 0 || batches[0]?.batchID === undefined`. -/
def postagesUnavailable (batches : List PostageBatch) : Bool :=
  batches.length == 0 || (batches.head?.bind PostageBatch.batchID).isNone

/-- `const batchId = batches[0].batchID` (indexer.ts line 120), reached only
after the guard ruled out the degenerate cases. -/
def batchIdOf (env : Env) : String :=
  (env.postageBatches.head?.bind PostageBatch.batchID).getD ""

/-- The two store operations started for one new blob (indexer.ts lines
122-135): a Google Storage save and a Swarm upload, each under the key the
source computes by its own call to `buildGoogleStorageUri(b.versionedHash)`. -/
def uploadOps (env : Env) (b : Blob) : List WriteOp :=
  [ { backend := Backend.googleStorage,
      key := buildGoogleStorageUri env.chainId b.versionedHash,
      data := b.data },
    { backend := Backend.swarm,
      key := buildGoogleStorageUri env.chainId b.versionedHash,
      data := b.data } ]

/-- Outcome of the two awaited uploads for one blob (indexer.ts lines
137-149): the record is built only when both succeed. -/
def uploadBlob (env : Env) (batchId : String) (b : Blob) : Option UploadedBlob :=
  match env.gsStore (buildGoogleStorageUri env.chainId b.versionedHash) b.data,
        env.swarmUpload batchId b.data
          (buildGoogleStorageUri env.chainId b.versionedHash) with
  | some _, some ref =>
      some { id := b.versionedHash
             versionedHash := b.versionedHash
             commitment := b.commitment
             gsUri := buildGoogleStorageUri env.chainId b.versionedHash
             swarmHash := ref
             size := calculateBlobSize b.data }
  | _, _ => none

/-- Trace of one call of the index mutation: the backend status checks that
ran (in order), the number of dedup lookups issued, every store operation
started, and the outcome. -/
structure IndexTrace where
  healthChecks : List Backend
  lookupCalls : Nat
  writes : List WriteOp
  result : Except IndexError (List UploadedBlob)

/-- Embedding of `indexerRouter.index` restricted to the blob-storage path.
The Swarm postage guard runs first and unconditionally; on failure the
mutation throws before the dedup lookup and before any upload.  Otherwise
every (new blob × backend) upload is started; if all succeed the record
list is produced (and the relational transaction of steps 4-6 runs),
otherwise `Promise.all` rejects and the mutation throws with zero records. -/
def index (env : Env) (blobs : List Blob) : IndexTrace :=
  if postagesUnavailable env.postageBatches then
    { healthChecks := [Backend.swarm]
      lookupCalls := 0
      writes := []
      result := Except.error IndexError.swarmPostagesUnavailable }
  else
    let part := partition blobs (bulkLookup env.knownHashes)
    let newBlobs := part.1.1
    let results := newBlobs.map (fun b => uploadBlob env (batchIdOf env) b)
    { healthChecks := [Backend.swarm]
      lookupCalls := part.2
      writes := (newBlobs.map (fun b => uploadOps env b)).flatten
      result :=
        if results.all Option.isSome then Except.ok (results.filterMap id)
        else Except.error IndexError.batchWriteFailed }

/-- The new blobs a call of `index` uploads. -/
def newBlobsOf (env : Env) (blobs : List Blob) : List Blob :=
  getNewBlobs env.knownHashes blobs

/-! Concrete fixtures used by the witnesses. -/

def blobA : Blob :=
  { versionedHash := "0xaa11bb22", commitment := "0xc1", data := "0xdead",
    txHash := "0xt1", index := 0 }

def blobB : Blob :=
  { versionedHash := "0xbb22cc33", commitment := "0xc2", data := "0xbeef",
    txHash := "0xt1", index := 1 }

def envOk : Env :=
  { chainId := "1"
    postageBatches := [{ batchID := some "b0" }]
    knownHashes := []
    gsStore := fun _ _ => some ()
    swarmUpload := fun _ _ _ => some "swarmref" }

def envNoPostage : Env :=
  { envOk with postageBatches := [] }

def envGsFail : Env :=
  { envOk with
      gsStore := fun k _ =>
        if k = buildGoogleStorageUri "1" "0xbb22cc33" then none else some () }

def envKnown : Env :=
  { envOk with knownHashes := ["0xaa11bb22", "0xbb22cc33"] }

/-! Helper lemmas (shared). -/

theorem partition_new_eq_filter (candidates : List Blob)
    (lookup : List String → List String) :
    (partition candidates lookup).1.1
      = candidates.filter (fun b =>
          !((lookup (candidates.map Blob.versionedHash)).contains
            b.versionedHash)) := by
  cases candidates with
  | nil => rfl
  | cons b t => rfl

theorem partition_existing_eq_filter (candidates : List Blob)
    (lookup : List String → List String) :
    (partition candidates lookup).1.2
      = candidates.filter (fun b =>
          (lookup (candidates.map Blob.versionedHash)).contains
            b.versionedHash) := by
  cases candidates with
  | nil => rfl
  | cons b t => rfl

theorem index_unfold (env : Env) (blobs : List Blob)
    (hp : postagesUnavailable env.postageBatches = false) :
    index env blobs =
      { healthChecks := [Backend.swarm]
        lookupCalls := (partition blobs (bulkLookup env.knownHashes)).2
        writes := ((newBlobsOf env blobs).map (fun b => uploadOps env b)).flatten
        result :=
          if ((newBlobsOf env blobs).map
                (fun b => uploadBlob env (batchIdOf env) b)).all Option.isSome
          then Except.ok (((newBlobsOf env blobs).map
                (fun b => uploadBlob env (batchIdOf env) b)).filterMap id)
          else Except.error IndexError.batchWriteFailed } := by
  unfold index
  rw [hp]
  rfl

theorem uploadBlob_none_of_fail (env : Env) (batchId : String) (b : Blob)
    (h : env.gsStore (buildGoogleStorageUri env.chainId b.versionedHash) b.data
          = none
       ∨ env.swarmUpload batchId b.data
          (buildGoogleStorageUri env.chainId b.versionedHash) = none) :
    uploadBlob env batchId b = none := by
  rcases h with h | h
  · cases hs : env.swarmUpload batchId b.data
        (buildGoogleStorageUri env.chainId b.versionedHash) <;>
      simp [uploadBlob, h, hs]
  · cases hg : env.gsStore
        (buildGoogleStorageUri env.chainId b.versionedHash) b.data <;>
      simp [uploadBlob, h, hg]

theorem uploadBlob_versionedHash (env : Env) (batchId : String) (b : Blob)
    (r : UploadedBlob) (h : uploadBlob env batchId b = some r) :
    r.versionedHash = b.versionedHash := by
  unfold uploadBlob at h
  cases hg : env.gsStore
      (buildGoogleStorageUri env.chainId b.versionedHash) b.data with
  | none => rw [hg] at h; simp at h
  | some u =>
      cases hs : env.swarmUpload batchId b.data
          (buildGoogleStorageUri env.chainId b.versionedHash) with
      | none => rw [hg, hs] at h; simp at h
      | some ref =>
          rw [hg, hs] at h
          simp only [Option.some.injEq] at h
          rw [← h]

/-! Claim theorems. -/

/-- Claim C2: for a non-empty candidate set, when the content network
reports zero postage units the mutation fails with the postage
(health-check) error before any backend write is attempted. -/
theorem index_no_postage_nonempty_fails (env : Env) (blobs : List Blob)
    (_hne : blobs ≠ [])
    (hp : postagesUnavailable env.postageBatches = true) :
    (index env blobs).result = Except.error IndexError.swarmPostagesUnavailable
      ∧ (index env blobs).writes = [] := by
  unfold index
  rw [hp]
  exact ⟨rfl, rfl⟩

/-- Witness for C2 at a concrete environment with an empty postage list and
one candidate blob. -/
theorem index_no_postage_nonempty_fails_witness :
    (index envNoPostage [blobA]).result
        = Except.error IndexError.swarmPostagesUnavailable
      ∧ (index envNoPostage [blobA]).writes = [] :=
  index_no_postage_nonempty_fails envNoPostage [blobA] (by decide) (by decide)

/-- Claim C7: the empty candidate set partitions into two empty sequences
with zero invocations of the known-hash lookup. -/
theorem partition_empty_no_lookup (lookup : List String → List String) :
    partition [] lookup = (([], []), 0) := rfl

/-- Claim C10: the postage-capacity guard runs unconditionally and first:
whenever the content network reports no usable postage batch, the mutation
fails with the postage error, performs zero writes and zero dedup lookups —
also for the empty blob list. -/
theorem index_postage_check_unconditional (env : Env) (blobs : List Blob)
    (hp : postagesUnavailable env.postageBatches = true) :
    (index env blobs).result = Except.error IndexError.swarmPostagesUnavailable
      ∧ (index env blobs).writes = []
      ∧ (index env blobs).lookupCalls = 0
      ∧ (index env blobs).healthChecks = [Backend.swarm] := by
  unfold index
  rw [hp]
  exact ⟨rfl, rfl, rfl, rfl⟩

/-- Witness for C10 at a concrete environment, with the empty blob list. -/
theorem index_postage_check_unconditional_witness :
    (index envNoPostage []).result
        = Except.error IndexError.swarmPostagesUnavailable
      ∧ (index envNoPostage []).writes = []
      ∧ (index envNoPostage []).lookupCalls = 0
      ∧ (index envNoPostage []).healthChecks = [Backend.swarm] :=
  index_postage_check_unconditional envNoPostage [] (by decide)

theorem index_healthChecks_eq (env : Env) (blobs : List Blob) :
    (index env blobs).healthChecks = [Backend.swarm] := by
  unfold index
  cases h : postagesUnavailable env.postageBatches <;> simp

theorem index_result_eq (env : Env) (blobs : List Blob)
    (hp : postagesUnavailable env.postageBatches = false) :
    (index env blobs).result =
      (if ((newBlobsOf env blobs).map
            (fun b => uploadBlob env (batchIdOf env) b)).all Option.isSome
       then Except.ok (((newBlobsOf env blobs).map
            (fun b => uploadBlob env (batchIdOf env) b)).filterMap id)
       else Except.error IndexError.batchWriteFailed) := by
  rw [index_unfold env blobs hp]

theorem index_writes_eq (env : Env) (blobs : List Blob)
    (hp : postagesUnavailable env.postageBatches = false) :
    (index env blobs).writes
      = ((newBlobsOf env blobs).map (fun b => uploadOps env b)).flatten := by
  rw [index_unfold env blobs hp]

/-- Claim C1: when any one backend's store fails for some new blob of the
batch, the whole mutation fails with the batch-write error, so zero records
are returned — also for blobs whose own uploads on every backend succeeded
(the thrown error discards the entire record list). -/
theorem index_store_failure_fails_batch (env : Env) (blobs : List Blob)
    (b : Blob)
    (hp : postagesUnavailable env.postageBatches = false)
    (hb : b ∈ newBlobsOf env blobs)
    (hfail : env.gsStore (buildGoogleStorageUri env.chainId b.versionedHash)
          b.data = none
       ∨ env.swarmUpload (batchIdOf env) b.data
          (buildGoogleStorageUri env.chainId b.versionedHash) = none) :
    (index env blobs).result = Except.error IndexError.batchWriteFailed := by
  have hnone : uploadBlob env (batchIdOf env) b = none :=
    uploadBlob_none_of_fail env (batchIdOf env) b hfail
  have hmem : (none : Option UploadedBlob)
      ∈ (newBlobsOf env blobs).map (fun x => uploadBlob env (batchIdOf env) x) := by
    rw [← hnone]
    exact List.mem_map_of_mem _ hb
  have hall : ((newBlobsOf env blobs).map
      (fun x => uploadBlob env (batchIdOf env) x)).all Option.isSome = false := by
    cases hc : ((newBlobsOf env blobs).map
        (fun x => uploadBlob env (batchIdOf env) x)).all Option.isSome with
    | false => rfl
    | true =>
        have hs := List.all_eq_true.mp hc _ hmem
        simp at hs
  rw [index_result_eq env blobs hp, hall]
  rfl

/-- Witness for C1: one healthy blob and one blob whose Google Storage write
fails; the batch errors with zero records. -/
theorem index_store_failure_fails_batch_witness :
    (index envGsFail [blobA, blobB]).result
      = Except.error IndexError.batchWriteFailed :=
  index_store_failure_fails_batch envGsFail [blobA, blobB] blobB (by decide)
    (by decide) (Or.inl (by decide))

/-- Claim C5: both configured backends receive the same storage key for each
new blob — the write log holds, for the blob, a Google Storage operation and
a Swarm operation whose keys are the identical string produced by the single
addressing function on the blob's versioned hash. -/
theorem index_same_key_all_backends (env : Env) (blobs : List Blob) (b : Blob)
    (hp : postagesUnavailable env.postageBatches = false)
    (hb : b ∈ newBlobsOf env blobs) :
    WriteOp.mk Backend.googleStorage
        (buildGoogleStorageUri env.chainId b.versionedHash) b.data
      ∈ (index env blobs).writes
    ∧ WriteOp.mk Backend.swarm
        (buildGoogleStorageUri env.chainId b.versionedHash) b.data
      ∈ (index env blobs).writes := by
  rw [index_writes_eq env blobs hp]
  constructor <;>
  · refine List.mem_flatten.mpr ⟨uploadOps env b, List.mem_map_of_mem _ hb, ?_⟩
    simp [uploadOps]

/-- Witness for C5 at a concrete healthy environment with one blob. -/
theorem index_same_key_all_backends_witness :
    WriteOp.mk Backend.googleStorage
        (buildGoogleStorageUri envOk.chainId blobA.versionedHash) blobA.data
      ∈ (index envOk [blobA]).writes
    ∧ WriteOp.mk Backend.swarm
        (buildGoogleStorageUri envOk.chainId blobA.versionedHash) blobA.data
      ∈ (index envOk [blobA]).writes :=
  index_same_key_all_backends envOk [blobA] blobA (by decide) (by decide)

/-- Claim C6 (dedup soundness): for every candidate list and every lookup,
the concatenation of the two partition outputs is a permutation of the
candidates, and the outputs are disjoint — each candidate lands in exactly
one of new and existing. -/
theorem partition_union_and_disjoint (candidates : List Blob)
    (lookup : List String → List String) :
    ((partition candidates lookup).1.1
        ++ (partition candidates lookup).1.2).Perm candidates
    ∧ ∀ b : Blob, ¬(b ∈ (partition candidates lookup).1.1
        ∧ b ∈ (partition candidates lookup).1.2) := by
  rw [partition_new_eq_filter, partition_existing_eq_filter]
  constructor
  · exact List.perm_append_comm.trans
      (List.filter_append_perm
        (fun b => (lookup (candidates.map Blob.versionedHash)).contains
          b.versionedHash) candidates)
  · intro b hb
    rcases hb with ⟨h1, h2⟩
    have e1 := (List.mem_filter.mp h1).2
    have e2 := (List.mem_filter.mp h2).2
    simp at e1 e2
    exact e1 e2

/-- Claim C8: when the lookup reports every candidate hash as already known,
the mutation returns the empty record sequence and issues zero store
operations on any backend. -/
theorem index_all_known_no_writes (env : Env) (blobs : List Blob)
    (hp : postagesUnavailable env.postageBatches = false)
    (hk : ∀ b ∈ blobs, b.versionedHash ∈ env.knownHashes) :
    (index env blobs).result = Except.ok []
      ∧ (index env blobs).writes = [] := by
  have hnew : newBlobsOf env blobs = [] := by
    rw [newBlobsOf, getNewBlobs, partition_new_eq_filter]
    rw [List.filter_eq_nil_iff]
    intro b hb
    have hmem : b.versionedHash
        ∈ bulkLookup env.knownHashes (blobs.map Blob.versionedHash) := by
      rw [bulkLookup]
      refine List.mem_filter.mpr ⟨List.mem_map_of_mem _ hb, ?_⟩
      simpa using hk b hb
    simp [hmem]
  rw [index_result_eq env blobs hp, index_writes_eq env blobs hp, hnew]
  exact ⟨rfl, rfl⟩

/-- Witness for C8: both candidate hashes are already known; the call
succeeds with no records and no writes. -/
theorem index_all_known_no_writes_witness :
    (index envKnown [blobA, blobB]).result = Except.ok []
      ∧ (index envKnown [blobA, blobB]).writes = [] :=
  index_all_known_no_writes envKnown [blobA, blobB] (by decide) (by decide)

theorem filterMap_upload_map_hash (env : Env) (batchId : String) :
    ∀ l : List Blob,
      (l.map (fun b => uploadBlob env batchId b)).all Option.isSome = true →
      ((l.map (fun b => uploadBlob env batchId b)).filterMap id).map
          UploadedBlob.versionedHash
        = l.map Blob.versionedHash := by
  intro l
  induction l with
  | nil => intro h; rfl
  | cons b t ih =>
      intro h
      rw [List.map_cons, List.all_cons, Bool.and_eq_true] at h
      obtain ⟨h1, h2⟩ := h
      cases hub : uploadBlob env batchId b with
      | none => rw [hub] at h1; simp at h1
      | some r =>
          rw [List.map_cons, hub, List.filterMap_cons]
          simp only [id]
          rw [List.map_cons, List.map_cons,
            uploadBlob_versionedHash env batchId b r hub, ih h2]

/-- Claim C9: order preservation — on success the returned records carry, in
order, exactly the hashes of the new blobs, and the new blobs are an
order-preserving sublist of the request's blob sequence. -/
theorem index_order_preserved (env : Env) (blobs : List Blob)
    (recs : List UploadedBlob)
    (hp : postagesUnavailable env.postageBatches = false)
    (hok : (index env blobs).result = Except.ok recs) :
    recs.map UploadedBlob.versionedHash
        = (newBlobsOf env blobs).map Blob.versionedHash
      ∧ (newBlobsOf env blobs).Sublist blobs := by
  rw [index_result_eq env blobs hp] at hok
  constructor
  · cases hc : ((newBlobsOf env blobs).map
        (fun b => uploadBlob env (batchIdOf env) b)).all Option.isSome with
    | false =>
        rw [hc] at hok
        exact absurd hok (by simp)
    | true =>
        rw [hc] at hok
        simp only [if_true, reduceIte, Except.ok.injEq] at hok
        rw [← hok]
        exact filterMap_upload_map_hash env (batchIdOf env)
          (newBlobsOf env blobs) hc
  · rw [newBlobsOf, getNewBlobs, partition_new_eq_filter]
    exact List.filter_sublist _

/-- The record the healthy environment produces for `blobA`. -/
def recA : UploadedBlob :=
  { id := "0xaa11bb22", versionedHash := "0xaa11bb22", commitment := "0xc1",
    gsUri := "1/aa/11/bb/aa11bb22.txt", swarmHash := "swarmref", size := 2 }

/-- The record the healthy environment produces for `blobB`. -/
def recB : UploadedBlob :=
  { id := "0xbb22cc33", versionedHash := "0xbb22cc33", commitment := "0xc2",
    gsUri := "1/bb/22/cc/bb22cc33.txt", swarmHash := "swarmref", size := 2 }

/-- Witness for C9: a two-blob batch on the healthy environment; the records
come back in input order. -/
theorem index_order_preserved_witness :
    [recA, recB].map UploadedBlob.versionedHash
        = (newBlobsOf envOk [blobA, blobB]).map Blob.versionedHash
      ∧ (newBlobsOf envOk [blobA, blobB]).Sublist [blobA, blobB] :=
  index_order_preserved envOk [blobA, blobB] [recA, recB] (by decide) (by rfl)

/-- Claim C3 counterexample: on a concrete healthy batch the mutation issues
an object-store write, yet the object store never occurs among the backend
status checks it performed — only the Swarm postage check runs, so no health
check on every configured backend precedes the writes. -/
theorem index_health_check_only_swarm_cex :
    ((index envOk [blobA]).writes.map WriteOp.backend).contains
        Backend.googleStorage = true
      ∧ ((index envOk [blobA]).healthChecks.contains Backend.googleStorage)
        = false := by
  decide

/-- Claim C3 as amended: before any write the mutation performs exactly one
backend status check, the Swarm postage-capacity check; when that check
fails, the batch fails with the postage-unavailable error and no write is
issued.  No object-store or filesystem health check exists on this path. -/
theorem index_health_check_only_swarm (env : Env) (blobs : List Blob) :
    (index env blobs).healthChecks = [Backend.swarm]
      ∧ (postagesUnavailable env.postageBatches = true →
          (index env blobs).result
              = Except.error IndexError.swarmPostagesUnavailable
            ∧ (index env blobs).writes = []) := by
  refine ⟨index_healthChecks_eq env blobs, fun hp => ?_⟩
  unfold index
  rw [hp]
  exact ⟨rfl, rfl⟩

/-- Witness for C3 as amended, at a concrete environment with no postage. -/
theorem index_health_check_only_swarm_witness :
    (index envNoPostage [blobA]).healthChecks = [Backend.swarm]
      ∧ ((index envNoPostage [blobA]).result
            = Except.error IndexError.swarmPostagesUnavailable
          ∧ (index envNoPostage [blobA]).writes = []) :=
  ⟨(index_health_check_only_swarm envNoPostage [blobA]).1,
   (index_health_check_only_swarm envNoPostage [blobA]).2 (by decide)⟩

/-- Claim C4 counterexample: at the snapshot input of GoogleStorage.test.ts
the derived key equals the snapshot — the shard segments followed by the
FULL digest — and differs from the key that the claim's words prescribe,
where only the remainder of the hash follows the segments. -/
theorem storage_key_remainder_cex :
    buildGoogleStorageUri "70118930558"
        "0x0100eac880c712dba4346c88ab564fa1b79024106f78f732cca49d8a68e4c174"
      = "70118930558/01/00/ea/0100eac880c712dba4346c88ab564fa1b79024106f78f732cca49d8a68e4c174.txt"
    ∧ buildGoogleStorageUri "70118930558"
        "0x0100eac880c712dba4346c88ab564fa1b79024106f78f732cca49d8a68e4c174"
      ≠ specDeriveKey "70118930558"
        "0x0100eac880c712dba4346c88ab564fa1b79024106f78f732cca49d8a68e4c174" := by
  exact ⟨rfl, by decide⟩

/-- Claim C4 as amended: for every chain id and `0x`-prefixed content hash,
the key is the chain-id prefix, then the three successive 2-hex-character
segments of the digest, then the FULL digest (not merely the remainder after
the segments) with a `.txt` extension; in particular a hash beginning
`0xaa11` yields a key containing the segments `aa` and `11`. -/
theorem storage_key_format :
    (∀ chainId digest : String,
      buildGoogleStorageUri chainId ("0x" ++ digest)
        = chainId ++ "/" ++ (digest.data.take 2).asString ++ "/"
            ++ ((digest.data.drop 2).take 2).asString ++ "/"
            ++ ((digest.data.drop 4).take 2).asString ++ "/"
            ++ digest ++ ".txt")
    ∧ (∀ chainId rest : String,
      buildGoogleStorageUri chainId ("0xaa11" ++ rest)
        = chainId ++ "/" ++ "aa" ++ "/" ++ "11" ++ "/"
            ++ (rest.data.take 2).asString ++ "/"
            ++ ("aa11" ++ rest) ++ ".txt") := by
  constructor
  · intro chainId digest
    obtain ⟨l⟩ := digest
    rfl
  · intro chainId rest
    obtain ⟨l⟩ := rest
    rfl
